import Mathlib

/-!
Verification of the product-catalog service specification.

The repository ships its HTTP test suite (`tests/test_routes.py`) and the
behave step definitions (`features/steps/load_steps.py`,
`features/steps/web_steps.py`).  The service implementation itself
(`service/routes.py`, `service/models.py`) is not among the provided
sources, so the store and the HTTP handlers below are modelled from the
specification; the bulk-load step is embedded directly from
`features/steps/load_steps.py`.
-/

set_option autoImplicit false

namespace ProductService

/-- Modelled from the spec: `category` is "one value from a fixed
enumeration (e.g. UNKNOWN, FOOD, CLOTHS, HOUSEWARES, ...)"; the exact set
is deployment-defined, so we fix the four members the spec lists.
Stored and serialized by name. -/
inductive Category where
  | UNKNOWN
  | FOOD
  | CLOTHS
  | HOUSEWARES
deriving DecidableEq

/-- Serialization of a category by its enumeration-member name. -/
def Category.name : Category → String
  | .UNKNOWN => "UNKNOWN"
  | .FOOD => "FOOD"
  | .CLOTHS => "CLOTHS"
  | .HOUSEWARES => "HOUSEWARES"

/-- Modelled from the spec: "`category` must resolve to a recognized
enumeration member; unrecognized values are a validation failure". -/
def Category.fromName : String → Option Category
  | "UNKNOWN" => some .UNKNOWN
  | "FOOD" => some .FOOD
  | "CLOTHS" => some .CLOTHS
  | "HOUSEWARES" => some .HOUSEWARES
  | _ => none

/-- Modelled from the spec, section 3 (data model): the sole entity.
Decimal prices are represented by exact rationals. -/
structure Product where
  id : Nat
  name : String
  description : String
  price : Rat
  available : Bool
  category : Category
deriving DecidableEq

/-- Modelled from the spec: the JSON record shape
`{"id": int, "name": string, "description": string, "price": decimal-string,
"available": bool, "category": string}`; the price string is identified
with its exact numeric value, and `category` is serialized by name. -/
structure ProductJSON where
  id : Nat
  name : String
  description : String
  price : Rat
  available : Bool
  category : String
deriving DecidableEq

def Product.serialize (p : Product) : ProductJSON :=
  { id := p.id, name := p.name, description := p.description,
    price := p.price, available := p.available, category := p.category.name }

/-- Modelled from the spec: the Product Store, "persistent collection of
product records; the only stateful component".  `nextId` is the next
server-assigned id; ids start at 1 so assigned ids are positive. -/
structure Store where
  products : List Product
  nextId : Nat
deriving DecidableEq

/-- The empty store a fresh deployment starts from. -/
def Store.empty : Store := { products := [], nextId := 1 }

/-- Modelled from the spec: `create(record)` "assigns a new unique `id`,
persists record, returns stored record". -/
def Store.create (s : Store) (name description : String) (price : Rat)
    (available : Bool) (category : Category) : Product × Store :=
  let p : Product := { id := s.nextId, name := name, description := description,
                       price := price, available := available, category := category }
  (p, { products := s.products ++ [p], nextId := s.nextId + 1 })

/-- Modelled from the spec: `get(id)` "returns the record or a not-found
signal". -/
def Store.get (s : Store) (id : Nat) : Option Product :=
  s.products.find? (fun p => p.id == id)

/-- Modelled from the spec: `update(id, record)` "replaces all fields
except `id`; fails with NotFound if `id` absent". -/
def Store.update (s : Store) (id : Nat) (name description : String) (price : Rat)
    (available : Bool) (category : Category) : Option (Product × Store) :=
  match s.products.find? (fun p => p.id == id) with
  | none => none
  | some _ =>
      let upd : Product := { id := id, name := name, description := description,
                             price := price, available := available, category := category }
      some (upd, { s with products := s.products.map (fun p => if p.id == id then upd else p) })

/-- Modelled from the spec: `delete(id)` "removes record if present;
deleting an absent `id` is a no-op". -/
def Store.delete (s : Store) (id : Nat) : Store :=
  { s with products := s.products.filter (fun p => p.id != id) }

/-- Modelled from the spec: `delete_all()` "clears the entire collection". -/
def Store.deleteAll (s : Store) : Store :=
  { s with products := [] }

/-- Modelled from the spec: a JSON request body for create.  A missing
`name` field is `none`; the raw `category` string still has to resolve to
an enumeration member. -/
structure CreateBody where
  name : Option String
  description : String
  price : Rat
  available : Bool
  category : String
deriving DecidableEq

/-- Modelled from the spec: a full-record update body (PUT sends the full
record; only NotFound is listed as a failure for update). -/
structure UpdateBody where
  name : String
  description : String
  price : Rat
  available : Bool
  category : Category
deriving DecidableEq

/-- An HTTP response as the tests observe it: status code, JSON array
body (a singleton for single-record endpoints), optional Location header,
and the human-readable message of error bodies. -/
structure Response where
  status : Nat
  body : List ProductJSON := []
  location : Option String := none
  message : String := ""
deriving DecidableEq

def jsonContentType : String := "application/json"

def notFoundMessage (id : Nat) : String :=
  "Product with id " ++ toString id ++ " was " ++ "not found" ++ "."

/-- Modelled from the spec: `POST /products`.  "Reject non-JSON content
types with 415 before attempting to parse the body"; reject bodies
missing the required `name` (or with an empty `name`), a negative price,
or an unrecognized category with 400; otherwise 201 with the stored
record and a `Location` header pointing at the new resource.  `body` is
`none` when the payload does not parse as JSON. -/
def createProduct (s : Store) (contentType : Option String)
    (body : Option CreateBody) : Response × Store :=
  if contentType ≠ some jsonContentType then
    ({ status := 415, message := "Content-Type must be application/json" }, s)
  else
    match body with
    | none => ({ status := 400, message := "Invalid JSON body" }, s)
    | some b =>
      match b.name with
      | none => ({ status := 400, message := "Invalid product: missing name" }, s)
      | some nm =>
        if nm = "" then ({ status := 400, message := "Invalid product: missing name" }, s)
        else if b.price < 0 then ({ status := 400, message := "Invalid product: bad price" }, s)
        else
          match Category.fromName b.category with
          | none => ({ status := 400, message := "Invalid product: bad category" }, s)
          | some cat =>
            let (p, s') := s.create nm b.description b.price b.available cat
            ({ status := 201, body := [p.serialize],
               location := some ("/products/" ++ toString p.id) }, s')

/-- Modelled from the spec: `GET /products/{id}` — 200 with the record,
or 404 with a message containing "not found". -/
def getProduct (s : Store) (id : Nat) : Response :=
  match s.get id with
  | some p => { status := 200, body := [p.serialize] }
  | none => { status := 404, message := notFoundMessage id }

/-- Modelled from the spec: `PUT /products/{id}` — 200 with the updated
record, or 404 when the id is absent. -/
def updateProduct (s : Store) (id : Nat) (b : UpdateBody) : Response × Store :=
  match s.update id b.name b.description b.price b.available b.category with
  | none => ({ status := 404, message := notFoundMessage id }, s)
  | some (p, s') => ({ status := 200, body := [p.serialize] }, s')

/-- Modelled from the spec: `DELETE /products/{id}` — always 204 No
Content, idempotent on a missing id. -/
def deleteProduct (s : Store) (id : Nat) : Response × Store :=
  ({ status := 204 }, s.delete id)

/-- ASCII lower-casing of a character, as Python `str.lower()` acts on
the ASCII strings involved here. -/
def lowChar (c : Char) : Char :=
  if c.isUpper then Char.ofNat (c.toNat + 32) else c

/-- ASCII lower-casing of a string. -/
def lowStr (v : String) : String := ⟨v.data.map lowChar⟩

/-- Modelled from the spec: "`available` accepts case-insensitive textual
truthy values" for the query parameter. -/
def truthy (v : String) : Bool :=
  lowStr v == "true" || lowStr v == "yes" || lowStr v == "1"

/-- The optional `name` / `category` / `available` query parameters of
`GET /products`. -/
structure ListFilter where
  name : Option String := none
  category : Option String := none
  available : Option String := none

/-- Modelled from the spec: "each supplied query parameter narrows the
result set by exact match (`name` exact string match, `category` exact
enumeration match by name, `available` exact boolean match after
truthy-string coercion)", combined with logical AND. -/
def matchesFilter (f : ListFilter) (p : Product) : Bool :=
  (match f.name with | none => true | some n => p.name == n) &&
  (match f.category with | none => true | some c => p.category.name == c) &&
  (match f.available with | none => true | some a => p.available == truthy a)

/-- Modelled from the spec: `GET /products` — 200 with the array of
matching records; with no parameters, the full collection. -/
def listProducts (s : Store) (f : ListFilter) : Response :=
  { status := 200, body := (s.products.filter (matchesFilter f)).map Product.serialize }

/-- Well-formedness of a store: the next id is positive, every stored id
is below it, and stored ids are pairwise distinct.  `Store.empty`
satisfies it and every operation preserves it. -/
def Store.WF (s : Store) : Prop :=
  1 ≤ s.nextId ∧ (∀ p ∈ s.products, p.id < s.nextId) ∧ (s.products.map Product.id).Nodup

instance (s : Store) : Decidable s.WF := by
  unfold Store.WF; infer_instance

/-! ### The bulk-load behave step, from `features/steps/load_steps.py` -/

/-- Numeric value of a digit string, failing on any non-digit. -/
def digitsVal (cs : List Char) : Option Nat :=
  cs.foldl (fun acc c => acc.bind (fun n =>
    if c.isDigit then some (n * 10 + (c.toNat - 48)) else none)) (some 0)

/-- Parse a non-empty digit string. -/
def parseNatChars (cs : List Char) : Option Nat :=
  if cs.isEmpty then none else digitsVal cs

/-- Python `float(...)` applied to the decimal price strings of the
feature tables, modelled exactly: an optional fractional part after one
dot, value `whole + frac / 10 ^ digits`; anything else fails. -/
def parseDecimal (s : String) : Option Rat :=
  match s.data.splitOn '.' with
  | [w] => (parseNatChars w).map (fun n => (n : Rat))
  | [w, f] =>
    match parseNatChars w, parseNatChars f with
    | some wn, some fn => some ((wn : Rat) + (fn : Rat) / ((10 : Rat) ^ f.length))
    | _, _ => none
  | _ => none

/-- One row of the Gherkin table consumed by the
`the following products exist:` step: all cells are strings. -/
structure Row where
  name : String
  description : String
  price : String
  available : String
  category : String
deriving DecidableEq

/-- From `load_steps.py`: `row['available'].lower() in ("true", "1")`. -/
def loadAvailable (v : String) : Bool :=
  lowStr v == "true" || lowStr v == "1"

/-- The JSON payload `load_steps.py` builds for a row; `none` when
`float(row['price'])` fails. -/
def rowPayload (r : Row) : Option CreateBody :=
  (parseDecimal r.price).map (fun pr =>
    { name := some r.name, description := r.description, price := pr,
      available := loadAvailable r.available, category := r.category })

/-- The loop of the step: one `POST /products` per table row, collecting
the responses; `none` when a price cell fails `float(...)`. -/
def loadRows (st : Store) : List Row → Option (List Response × Store)
  | [] => some ([], st)
  | r :: rs =>
    match rowPayload r with
    | none => none
    | some b =>
      let (resp, st') := createProduct st (some jsonContentType) (some b)
      match loadRows st' rs with
      | none => none
      | some (resps, stf) => some (resp :: resps, stf)

/-- The whole `the following products exist:` step: first
`requests.delete(base_url + "/products")` clears the collection, then one
`POST /products` per row. -/
def loadStep (st : Store) (rows : List Row) : Option (List Response × Store) :=
  loadRows st.deleteAll rows

/-- A table row the service accepts: non-empty name, a price cell that
parses to a non-negative value, a recognized category. -/
def Row.valid (r : Row) : Bool :=
  r.name != "" &&
  (match parseDecimal r.price with | none => false | some q => decide (0 ≤ q)) &&
  (Category.fromName r.category).isSome

/-- The correspondence claim C10 asserts between a stored product and the
table row it was loaded from. -/
def rowMatches (p : Product) (r : Row) : Prop :=
  p.name = r.name ∧ p.description = r.description ∧
  parseDecimal r.price = some p.price ∧
  p.available = loadAvailable r.available ∧
  Category.fromName r.category = some p.category

/-- Posting a sequence of payloads, keeping only the final store. -/
def postSeq (st : Store) (bs : List CreateBody) : Store :=
  bs.foldl (fun s b => (createProduct s (some jsonContentType) (some b)).2) st

/-- The example scenario of the spec: five payloads, exactly two of them
named "Widget". -/
def widgetBodies : List CreateBody :=
  [{ name := some "Widget", description := "w1", price := 1,
     available := true, category := "FOOD" },
   { name := some "Gadget", description := "g", price := 2,
     available := false, category := "CLOTHS" },
   { name := some "Widget", description := "w2", price := 3,
     available := true, category := "HOUSEWARES" },
   { name := some "Doohickey", description := "d", price := 4,
     available := true, category := "UNKNOWN" },
   { name := some "Thing", description := "t", price := 5,
     available := false, category := "FOOD" }]

/-- The store after creating the five scenario products. -/
def widgetStore : Store := postSeq Store.empty widgetBodies

/-- A concrete two-record store used to witness the category and
availability filters. -/
def demoStore : Store :=
  { products :=
      [{ id := 1, name := "Mug", description := "blue", price := 3,
         available := false, category := Category.HOUSEWARES },
       { id := 2, name := "Hat", description := "felt", price := 5,
         available := true, category := Category.CLOTHS }],
    nextId := 3 }

/-- A concrete one-record store used to witness the unfiltered listing. -/
def soloStore : Store :=
  { products :=
      [{ id := 1, name := "Mug", description := "blue", price := 3,
         available := false, category := Category.HOUSEWARES }],
    nextId := 2 }

/-! ### Helper lemmas -/

theorem fromName_name {x : String} {c : Category} (h : Category.fromName x = some c) :
    c.name = x := by
  unfold Category.fromName at h
  split at h <;> (try cases h) <;> rfl

/-- Anatomy of a successful create: 201 status, the submitted record with
the fresh id `s.nextId` as body, a Location header naming that id, and the
record appended to the store. -/
theorem createProduct_success (s : Store) (b : CreateBody) (nm : String)
    (hn : b.name = some nm) (hne : nm ≠ "") (hp : ¬ b.price < 0)
    (cat : Category) (hc : Category.fromName b.category = some cat) :
    createProduct s (some jsonContentType) (some b) =
      ({ status := 201,
         body := [{ id := s.nextId, name := nm, description := b.description,
                    price := b.price, available := b.available, category := b.category }],
         location := some ("/products/" ++ toString s.nextId) },
       { products := s.products ++
           [{ id := s.nextId, name := nm, description := b.description,
              price := b.price, available := b.available, category := cat }],
         nextId := s.nextId + 1 }) := by
  simp only [createProduct, Store.create, Product.serialize, hn, hc, hne, hp,
    if_neg, ite_false, ne_eq, not_true_eq_false]
  simp [fromName_name hc, hne, hp]

/-- Looking up a fresh id after appending it finds exactly the appended
record. -/
theorem find?_append_fresh (l : List Product) (p : Product)
    (h : ∀ q ∈ l, q.id < p.id) :
    (l ++ [p]).find? (fun q => q.id == p.id) = some p := by
  rw [List.find?_append]
  have h1 : l.find? (fun q => q.id == p.id) = none := by
    rw [List.find?_eq_none]
    intro q hq
    simp only [beq_iff_eq]
    exact Nat.ne_of_lt (h q hq)
  simp [h1, List.find?]

/-- Reading an id the store resolves returns 200 with that record. -/
theorem getProduct_of_find (s : Store) (id : Nat) (p : Product)
    (h : s.products.find? (fun q => q.id == id) = some p) :
    getProduct s id = { status := 200, body := [p.serialize] } := by
  unfold getProduct Store.get
  rw [h]

/-! ### Claims -/

/-- C1: for every valid product payload (non-empty name, non-negative
price, recognized category), `POST /products` returns status 201, a
response body equal to the submitted record plus a server-assigned
positive integer id, and a Location header referencing the newly created
resource. -/
theorem create_valid_returns_201 (s : Store) (b : CreateBody) (nm : String)
    (hs : 1 ≤ s.nextId) (hn : b.name = some nm) (hne : nm ≠ "")
    (hp : ¬ b.price < 0) (cat : Category)
    (hc : Category.fromName b.category = some cat) :
    ∃ newId : Nat, 0 < newId ∧
      (createProduct s (some jsonContentType) (some b)).1 =
        { status := 201,
          body := [{ id := newId, name := nm, description := b.description,
                     price := b.price, available := b.available,
                     category := b.category }],
          location := some ("/products/" ++ toString newId) } := by
  refine ⟨s.nextId, hs, ?_⟩
  rw [createProduct_success s b nm hn hne hp cat hc]

/-- Witness for C1 at a concrete store and payload. -/
theorem create_valid_returns_201_witness :
    1 ≤ Store.empty.nextId ∧
    (some "Hat" : Option String) = some "Hat" ∧ ("Hat" : String) ≠ "" ∧
    ¬ (5 : Rat) < 0 ∧ Category.fromName "CLOTHS" = some Category.CLOTHS ∧
    ∃ newId : Nat, 0 < newId ∧
      (createProduct Store.empty (some jsonContentType)
          (some { name := some "Hat", description := "felt", price := 5,
                  available := true, category := "CLOTHS" })).1 =
        { status := 201,
          body := [{ id := newId, name := "Hat", description := "felt",
                     price := 5, available := true, category := "CLOTHS" }],
          location := some ("/products/" ++ toString newId) } :=
  ⟨by decide, rfl, by decide, by decide, rfl,
   create_valid_returns_201 Store.empty
     { name := some "Hat", description := "felt", price := 5,
       available := true, category := "CLOTHS" }
     "Hat" (by decide) rfl (by decide) (by decide) Category.CLOTHS rfl⟩

/-- C2: round trip — every record created via `POST /products` is
returned by a subsequent `GET /products/{id}` with the assigned id, with
status 200 and a body equal to the created record field-for-field. -/
theorem create_then_get_roundtrip (s : Store) (b : CreateBody) (nm : String)
    (hwf : s.WF) (hn : b.name = some nm) (hne : nm ≠ "")
    (hp : ¬ b.price < 0) (cat : Category)
    (hc : Category.fromName b.category = some cat) :
    ∃ j : ProductJSON,
      (createProduct s (some jsonContentType) (some b)).1.status = 201 ∧
      (createProduct s (some jsonContentType) (some b)).1.body = [j] ∧
      getProduct (createProduct s (some jsonContentType) (some b)).2 j.id =
        { status := 200, body := [j] } := by
  obtain ⟨hs, hlt, hnd⟩ := hwf
  rw [createProduct_success s b nm hn hne hp cat hc]
  refine ⟨Product.serialize
    { id := s.nextId, name := nm, description := b.description,
      price := b.price, available := b.available, category := cat }, rfl, ?_, ?_⟩
  · simp [Product.serialize, fromName_name hc]
  · exact getProduct_of_find _ _ _
      (find?_append_fresh s.products
        { id := s.nextId, name := nm, description := b.description,
          price := b.price, available := b.available, category := cat }
        (fun q hq => hlt q hq))

/-- Witness for C2 at a concrete store and payload. -/
theorem create_then_get_roundtrip_witness :
    Store.empty.WF ∧
    (some "Mug" : Option String) = some "Mug" ∧ ("Mug" : String) ≠ "" ∧
    ¬ (3 : Rat) < 0 ∧ Category.fromName "HOUSEWARES" = some Category.HOUSEWARES ∧
    ∃ j : ProductJSON,
      (createProduct Store.empty (some jsonContentType)
          (some { name := some "Mug", description := "blue", price := 3,
                  available := false, category := "HOUSEWARES" })).1.status = 201 ∧
      (createProduct Store.empty (some jsonContentType)
          (some { name := some "Mug", description := "blue", price := 3,
                  available := false, category := "HOUSEWARES" })).1.body = [j] ∧
      getProduct (createProduct Store.empty (some jsonContentType)
          (some { name := some "Mug", description := "blue", price := 3,
                  available := false, category := "HOUSEWARES" })).2 j.id =
        { status := 200, body := [j] } :=
  ⟨by decide, rfl, by decide, by decide, rfl,
   create_then_get_roundtrip Store.empty
     { name := some "Mug", description := "blue", price := 3,
       available := false, category := "HOUSEWARES" }
     "Mug" (by decide) rfl (by decide) (by decide) Category.HOUSEWARES rfl⟩

/-- C3: for every id not present in the store, `GET /products/{id}`
returns 404 with a message containing "not found", and `PUT
/products/{id}` returns 404 (leaving the store unchanged); these handlers
are functions of the store, so no other status is possible there. -/
theorem unknown_id_read_update_404 (s : Store) (id : Nat)
    (h : s.get id = none) :
    (getProduct s id).status = 404 ∧
    (∃ a b' : String, (getProduct s id).message = a ++ "not found" ++ b') ∧
    ∀ b : UpdateBody,
      (updateProduct s id b).1.status = 404 ∧ (updateProduct s id b).2 = s := by
  have h' : s.products.find? (fun p => p.id == id) = none := h
  refine ⟨?_, ⟨("Product with id " ++ toString id) ++ " was ", ".", ?_⟩, ?_⟩
  · unfold getProduct
    rw [h]
  · unfold getProduct
    rw [h]
    rfl
  · intro b
    unfold updateProduct Store.update
    rw [h']
    exact ⟨rfl, rfl⟩

/-- Witness for C3 on the empty store and id 0. -/
theorem unknown_id_read_update_404_witness :
    Store.empty.get 0 = none ∧
    ((getProduct Store.empty 0).status = 404 ∧
     (∃ a b' : String,
        (getProduct Store.empty 0).message = a ++ "not found" ++ b') ∧
     ∀ b : UpdateBody,
       (updateProduct Store.empty 0 b).1.status = 404 ∧
       (updateProduct Store.empty 0 b).2 = Store.empty) :=
  ⟨rfl, unknown_id_read_update_404 Store.empty 0 rfl⟩

/-- After `update`, looking up the id finds the replacement record. -/
theorem find?_map_replace (l : List Product) (id : Nat) (upd : Product)
    (hu : upd.id = id) (h : (l.find? (fun q => q.id == id)).isSome) :
    (l.map (fun q => if q.id == id then upd else q)).find?
      (fun q => q.id == id) = some upd := by
  induction l with
  | nil => simp at h
  | cons a t ih =>
    by_cases ha : (a.id == id) = true
    · rw [List.map_cons, if_pos ha, List.find?_cons_of_pos _ (by simp [hu])]
    · rw [List.map_cons, if_neg ha,
        List.find?_cons_of_neg (p := fun q : Product => q.id == id) _ ha]
      rw [List.find?_cons_of_neg (p := fun q : Product => q.id == id) _ ha] at h
      exact ih h

/-- C4: for every id present in the store and every full-record payload,
`PUT /products/{id}` returns 200 with the updated record, whose id is the
path id and whose other fields all come from the payload, and a
subsequent `GET` of the same id returns exactly that record. -/
theorem update_replaces_all_fields (s : Store) (id : Nat) (p : Product)
    (b : UpdateBody) (h : s.get id = some p) :
    (updateProduct s id b).1.status = 200 ∧
    (updateProduct s id b).1.body =
      [{ id := id, name := b.name, description := b.description,
         price := b.price, available := b.available,
         category := b.category.name }] ∧
    getProduct (updateProduct s id b).2 id =
      { status := 200,
        body := [{ id := id, name := b.name, description := b.description,
                   price := b.price, available := b.available,
                   category := b.category.name }] } := by
  have h' : s.products.find? (fun q => q.id == id) = some p := h
  have hsome : (s.products.find? (fun q => q.id == id)).isSome := by
    rw [h']; rfl
  unfold updateProduct Store.update
  rw [h']
  refine ⟨rfl, rfl, ?_⟩
  exact getProduct_of_find _ _
    { id := id, name := b.name, description := b.description,
      price := b.price, available := b.available, category := b.category }
    (find?_map_replace s.products id _ rfl hsome)

/-- Witness for C4: update the one record of a one-record store. -/
theorem update_replaces_all_fields_witness :
    (createProduct Store.empty (some jsonContentType)
        (some { name := some "Mug", description := "blue", price := 3,
                available := false, category := "HOUSEWARES" })).2.get 1 =
      some { id := 1, name := "Mug", description := "blue", price := 3,
             available := false, category := Category.HOUSEWARES } ∧
    ((updateProduct (createProduct Store.empty (some jsonContentType)
        (some { name := some "Mug", description := "blue", price := 3,
                available := false, category := "HOUSEWARES" })).2 1
        { name := "Mug", description := "red", price := 4,
          available := true, category := Category.FOOD }).1.status = 200 ∧
     (updateProduct (createProduct Store.empty (some jsonContentType)
        (some { name := some "Mug", description := "blue", price := 3,
                available := false, category := "HOUSEWARES" })).2 1
        { name := "Mug", description := "red", price := 4,
          available := true, category := Category.FOOD }).1.body =
       [{ id := 1, name := "Mug", description := "red", price := 4,
          available := true, category := Category.FOOD.name }] ∧
     getProduct (updateProduct (createProduct Store.empty (some jsonContentType)
        (some { name := some "Mug", description := "blue", price := 3,
                available := false, category := "HOUSEWARES" })).2 1
        { name := "Mug", description := "red", price := 4,
          available := true, category := Category.FOOD }).2 1 =
       { status := 200,
         body := [{ id := 1, name := "Mug", description := "red", price := 4,
                    available := true, category := Category.FOOD.name }] }) :=
  ⟨by decide,
   update_replaces_all_fields _ 1
     { id := 1, name := "Mug", description := "blue", price := 3,
       available := false, category := Category.HOUSEWARES }
     { name := "Mug", description := "red", price := 4,
       available := true, category := Category.FOOD }
     (by decide)⟩

/-- Filtering an id out leaves no record with that id. -/
theorem find?_filter_ne (l : List Product) (id : Nat) :
    (l.filter (fun q => q.id != id)).find? (fun q => q.id == id) = none := by
  rw [List.find?_eq_none]
  intro x hx
  have hne := (List.mem_filter.mp hx).2
  simpa using hne

/-- With pairwise-distinct ids, deleting a present id removes exactly one
record. -/
theorem length_filter_remove (l : List Product) (id : Nat)
    (hnd : (l.map Product.id).Nodup)
    (hsome : (l.find? (fun q => q.id == id)).isSome) :
    (l.filter (fun q => q.id != id)).length + 1 = l.length := by
  induction l with
  | nil => simp at hsome
  | cons a t ih =>
    simp only [List.map_cons, List.nodup_cons] at hnd
    obtain ⟨hna, hndt⟩ := hnd
    by_cases ha : (a.id == id) = true
    · have haeq : a.id = id := by simpa using ha
      have hkeep : t.filter (fun q => q.id != id) = t := by
        rw [List.filter_eq_self]
        intro q hq
        simp only [bne_iff_ne, ne_eq]
        intro hqid
        exact hna (List.mem_map.mpr ⟨q, hq, by rw [hqid, haeq]⟩)
      have hdrop : (a.id != id) = false := by simp [haeq]
      rw [List.filter_cons, if_neg (by simp [haeq]), hkeep, List.length_cons]
    · rw [List.find?_cons_of_neg (p := fun q : Product => q.id == id) _ ha]
        at hsome
      have hkeep : (a.id != id) = true := by simpa using ha
      rw [List.filter_cons, if_pos hkeep, List.length_cons, List.length_cons,
        ih hndt hsome]

/-- C5: `DELETE /products/{id}` always returns 204; when the id is
present it removes exactly that record (the subsequent `GET` returns 404
and the collection shrinks by exactly one); when it is absent the store
is unchanged. -/
theorem delete_idempotent (s : Store) (id : Nat) (hwf : s.WF) :
    (deleteProduct s id).1.status = 204 ∧
    (∀ p, s.get id = some p →
        (getProduct (deleteProduct s id).2 id).status = 404 ∧
        (deleteProduct s id).2.products.length + 1 = s.products.length) ∧
    (s.get id = none → (deleteProduct s id).2 = s) := by
  obtain ⟨hs, hlt, hnd⟩ := hwf
  refine ⟨rfl, ?_, ?_⟩
  · intro p hp
    constructor
    · unfold getProduct Store.get deleteProduct Store.delete
      rw [find?_filter_ne]
    · exact length_filter_remove s.products id hnd (by rw [show
        s.products.find? (fun q => q.id == id) = some p from hp]; rfl)
  · intro hnone
    have h' : ∀ q ∈ s.products, (q.id != id) = true := by
      intro q hq
      have := List.find?_eq_none.mp hnone q hq
      simpa using this
    unfold deleteProduct Store.delete
    rw [List.filter_eq_self.mpr h']

/-- Witness for C5 on a two-record store: delete id 1, both branches. -/
theorem delete_idempotent_witness :
    (createProduct (createProduct Store.empty (some jsonContentType)
        (some { name := some "Mug", description := "blue", price := 3,
                available := false, category := "HOUSEWARES" })).2
        (some jsonContentType)
        (some { name := some "Hat", description := "felt", price := 5,
                available := true, category := "CLOTHS" })).2.WF ∧
    ((deleteProduct (createProduct (createProduct Store.empty
          (some jsonContentType)
          (some { name := some "Mug", description := "blue", price := 3,
                  available := false, category := "HOUSEWARES" })).2
          (some jsonContentType)
          (some { name := some "Hat", description := "felt", price := 5,
                  available := true, category := "CLOTHS" })).2 1).1.status = 204 ∧
     (∀ p, (createProduct (createProduct Store.empty (some jsonContentType)
          (some { name := some "Mug", description := "blue", price := 3,
                  available := false, category := "HOUSEWARES" })).2
          (some jsonContentType)
          (some { name := some "Hat", description := "felt", price := 5,
                  available := true, category := "CLOTHS" })).2.get 1 = some p →
        (getProduct (deleteProduct (createProduct (createProduct Store.empty
            (some jsonContentType)
            (some { name := some "Mug", description := "blue", price := 3,
                    available := false, category := "HOUSEWARES" })).2
            (some jsonContentType)
            (some { name := some "Hat", description := "felt", price := 5,
                    available := true, category := "CLOTHS" })).2 1).2 1).status
          = 404 ∧
        (deleteProduct (createProduct (createProduct Store.empty
            (some jsonContentType)
            (some { name := some "Mug", description := "blue", price := 3,
                    available := false, category := "HOUSEWARES" })).2
            (some jsonContentType)
            (some { name := some "Hat", description := "felt", price := 5,
                    available := true, category := "CLOTHS" })).2 1).2.products.length
            + 1 =
          (createProduct (createProduct Store.empty (some jsonContentType)
            (some { name := some "Mug", description := "blue", price := 3,
                    available := false, category := "HOUSEWARES" })).2
            (some jsonContentType)
            (some { name := some "Hat", description := "felt", price := 5,
                    available := true, category := "CLOTHS" })).2.products.length) ∧
     ((createProduct (createProduct Store.empty (some jsonContentType)
          (some { name := some "Mug", description := "blue", price := 3,
                  available := false, category := "HOUSEWARES" })).2
          (some jsonContentType)
          (some { name := some "Hat", description := "felt", price := 5,
                  available := true, category := "CLOTHS" })).2.get 1 = none →
        (deleteProduct (createProduct (createProduct Store.empty
            (some jsonContentType)
            (some { name := some "Mug", description := "blue", price := 3,
                    available := false, category := "HOUSEWARES" })).2
            (some jsonContentType)
            (some { name := some "Hat", description := "felt", price := 5,
                    available := true, category := "CLOTHS" })).2 1).2 =
          (createProduct (createProduct Store.empty (some jsonContentType)
            (some { name := some "Mug", description := "blue", price := 3,
                    available := false, category := "HOUSEWARES" })).2
            (some jsonContentType)
            (some { name := some "Hat", description := "felt", price := 5,
                    available := true, category := "CLOTHS" })).2)) :=
  ⟨by decide, delete_idempotent _ 1 (by decide)⟩

/-- C6: `POST /products` with a body missing `name` yields 400; with no
or a non-JSON content type it yields 415 whatever the body is, parsed or
not — the content-type rejection precedes body parsing. -/
theorem create_rejects_bad_input (s : Store) :
    (∀ (ct : Option String) (body : Option CreateBody),
        ct ≠ some jsonContentType →
        (createProduct s ct body).1.status = 415 ∧
        (createProduct s ct body).2 = s) ∧
    (∀ b : CreateBody, b.name = none →
        (createProduct s (some jsonContentType) (some b)).1.status = 400 ∧
        (createProduct s (some jsonContentType) (some b)).2 = s) := by
  constructor
  · intro ct body hct
    unfold createProduct
    rw [if_pos hct]
    exact ⟨rfl, rfl⟩
  · intro b hb
    unfold createProduct
    rw [if_neg (by simp)]
    simp [hb]

/-- Witness for C6: a missing content type and a payload without name. -/
theorem create_rejects_bad_input_witness :
    ((none : Option String) ≠ some jsonContentType) ∧
    ((createProduct Store.empty none
        (some { name := some "Hat", description := "felt", price := 5,
                available := true, category := "CLOTHS" })).1.status = 415 ∧
     (createProduct Store.empty none
        (some { name := some "Hat", description := "felt", price := 5,
                available := true, category := "CLOTHS" })).2 = Store.empty) ∧
    (({ name := none, description := "d", price := 1, available := true,
        category := "FOOD" } : CreateBody).name = none) ∧
    ((createProduct Store.empty (some jsonContentType)
        (some { name := none, description := "d", price := 1,
                available := true, category := "FOOD" })).1.status = 400 ∧
     (createProduct Store.empty (some jsonContentType)
        (some { name := none, description := "d", price := 1,
                available := true, category := "FOOD" })).2 = Store.empty) :=
  ⟨by decide,
   (create_rejects_bad_input Store.empty).1 none
     (some { name := some "Hat", description := "felt", price := 5,
             available := true, category := "CLOTHS" }) (by decide),
   rfl,
   (create_rejects_bad_input Store.empty).2
     { name := none, description := "d", price := 1, available := true,
       category := "FOOD" } rfl⟩

/-- C7: `GET /products?name=X` returns 200 and exactly the records whose
name equals X, for every store state and string X; in the concrete
scenario of five created products with two named "Widget", the query
returns exactly those two. -/
theorem query_by_name_exact (s : Store) (x : String) :
    ((listProducts s { name := some x }).status = 200 ∧
     ∀ j, j ∈ (listProducts s { name := some x }).body ↔
       ∃ p ∈ s.products, p.name = x ∧ j = p.serialize) ∧
    (widgetStore.products.length = 5 ∧
     (listProducts widgetStore { name := some "Widget" }).body.length = 2 ∧
     ∀ j ∈ (listProducts widgetStore { name := some "Widget" }).body,
       j.name = "Widget") := by
  refine ⟨⟨rfl, ?_⟩, by decide, by decide, by decide⟩
  intro j
  simp only [listProducts, List.mem_map, List.mem_filter, matchesFilter]
  constructor
  · rintro ⟨p, ⟨hp, hm⟩, rfl⟩
    exact ⟨p, hp, by simpa using hm, rfl⟩
  · rintro ⟨p, hp, hx, rfl⟩
    exact ⟨p, ⟨hp, by simp [hx]⟩, rfl⟩

/-- Witness for C7 at the scenario store and the name "Widget". -/
theorem query_by_name_exact_witness :
    ((listProducts widgetStore { name := some "Widget" }).status = 200 ∧
     ∀ j, j ∈ (listProducts widgetStore { name := some "Widget" }).body ↔
       ∃ p ∈ widgetStore.products, p.name = "Widget" ∧ j = p.serialize) ∧
    (widgetStore.products.length = 5 ∧
     (listProducts widgetStore { name := some "Widget" }).body.length = 2 ∧
     ∀ j ∈ (listProducts widgetStore { name := some "Widget" }).body,
       j.name = "Widget") :=
  query_by_name_exact widgetStore "Widget"

/-- C8: single-filter listing returns exactly the matching subset —
`category=C` matches by enumeration name, `available=a` by equality with
the truthy-string coercion of the parameter. -/
theorem query_by_category_availability_exact (s : Store) :
    (∀ c, (listProducts s { category := some c }).status = 200 ∧
       ∀ j, j ∈ (listProducts s { category := some c }).body ↔
         ∃ p ∈ s.products, p.category.name = c ∧ j = p.serialize) ∧
    (∀ a, (listProducts s { available := some a }).status = 200 ∧
       ∀ j, j ∈ (listProducts s { available := some a }).body ↔
         ∃ p ∈ s.products, p.available = truthy a ∧ j = p.serialize) := by
  constructor
  · intro c
    refine ⟨rfl, ?_⟩
    intro j
    simp only [listProducts, List.mem_map, List.mem_filter, matchesFilter]
    constructor
    · rintro ⟨p, ⟨hp, hm⟩, rfl⟩
      exact ⟨p, hp, by simpa using hm, rfl⟩
    · rintro ⟨p, hp, hx, rfl⟩
      exact ⟨p, ⟨hp, by simp [hx]⟩, rfl⟩
  · intro a
    refine ⟨rfl, ?_⟩
    intro j
    simp only [listProducts, List.mem_map, List.mem_filter, matchesFilter]
    constructor
    · rintro ⟨p, ⟨hp, hm⟩, rfl⟩
      exact ⟨p, hp, by simpa using hm, rfl⟩
    · rintro ⟨p, hp, hx, rfl⟩
      exact ⟨p, ⟨hp, by simp [hx]⟩, rfl⟩

/-- Witness for C8 at a concrete two-record store. -/
theorem query_by_category_availability_exact_witness :
    (∀ c, (listProducts demoStore { category := some c }).status = 200 ∧
       ∀ j, j ∈ (listProducts demoStore { category := some c }).body ↔
         ∃ p ∈ demoStore.products, p.category.name = c ∧ j = p.serialize) ∧
    (∀ a, (listProducts demoStore { available := some a }).status = 200 ∧
       ∀ j, j ∈ (listProducts demoStore { available := some a }).body ↔
         ∃ p ∈ demoStore.products, p.available = truthy a ∧ j = p.serialize) :=
  query_by_category_availability_exact demoStore

/-- C9: `GET /products` with no query parameters returns 200 with one
element per stored record — precisely the serialized full collection. -/
theorem list_no_filter_full_collection (s : Store) :
    (listProducts s {}).status = 200 ∧
    (listProducts s {}).body = s.products.map Product.serialize := by
  refine ⟨rfl, ?_⟩
  show (s.products.filter (matchesFilter {})).map Product.serialize =
    s.products.map Product.serialize
  rw [(List.filter_eq_self (p := matchesFilter {})).mpr (fun q _ => rfl)]

/-- Witness for C9 at a concrete one-record store. -/
theorem list_no_filter_full_collection_witness :
    (listProducts soloStore {}).status = 200 ∧
    (listProducts soloStore {}).body = soloStore.products.map Product.serialize :=
  list_no_filter_full_collection soloStore

/-- Invariant of the load loop: with valid rows it succeeds, every
response is a 201, and it appends exactly one matching record per row, in
order. -/
theorem loadRows_spec (rows : List Row) :
    ∀ st : Store, (∀ r ∈ rows, r.valid = true) →
    ∃ resps stf news,
      loadRows st rows = some (resps, stf) ∧
      (∀ x ∈ resps, x.status = 201) ∧
      stf.products = st.products ++ news ∧
      List.Forall₂ rowMatches news rows := by
  induction rows with
  | nil =>
    intro st _
    exact ⟨[], st, [], rfl, by simp, by simp, List.Forall₂.nil⟩
  | cons r rs ih =>
    intro st hv
    have hr : r.valid = true := hv r (List.mem_cons_self r rs)
    unfold Row.valid at hr
    rw [Bool.and_eq_true, Bool.and_eq_true] at hr
    obtain ⟨⟨hne', hq⟩, hcat⟩ := hr
    have hne : r.name ≠ "" := by simpa using hne'
    obtain ⟨q, hparse, hq0⟩ : ∃ q, parseDecimal r.price = some q ∧ 0 ≤ q := by
      revert hq
      cases hp : parseDecimal r.price with
      | none => intro h; cases h
      | some q => intro h; exact ⟨q, rfl, by simpa using h⟩
    obtain ⟨cat, hcat'⟩ : ∃ cat, Category.fromName r.category = some cat := by
      revert hcat
      cases hc : Category.fromName r.category with
      | none => intro h; cases h
      | some c => intro _; exact ⟨c, rfl⟩
    have hpay : rowPayload r = some
        { name := some r.name, description := r.description, price := q,
          available := loadAvailable r.available, category := r.category } := by
      unfold rowPayload
      rw [hparse]
      rfl
    have hcreate := createProduct_success st
      { name := some r.name, description := r.description, price := q,
        available := loadAvailable r.available, category := r.category }
      r.name rfl hne (not_lt.mpr hq0) cat hcat'
    obtain ⟨resps', stf, news', hrows, h201, hprod, hmatch⟩ :=
      ih { products := st.products ++
             [{ id := st.nextId, name := r.name, description := r.description,
                price := q, available := loadAvailable r.available,
                category := cat }],
           nextId := st.nextId + 1 }
        (fun r' hr' => hv r' (List.mem_cons_of_mem r hr'))
    refine ⟨{ status := 201,
              body := [{ id := st.nextId, name := r.name,
                         description := r.description, price := q,
                         available := loadAvailable r.available,
                         category := r.category }],
              location := some ("/products/" ++ toString st.nextId) } :: resps',
            stf,
            { id := st.nextId, name := r.name, description := r.description,
              price := q, available := loadAvailable r.available,
              category := cat } :: news', ?_, ?_, ?_, ?_⟩
    · simp only [loadRows, hpay, hcreate, hrows]
    · intro x hx
      rcases List.mem_cons.mp hx with hx1 | hx2
      · rw [hx1]
      · exact h201 x hx2
    · rw [hprod]
      simp
    · exact List.Forall₂.cons ⟨rfl, rfl, by rw [hparse], rfl, hcat'⟩ hmatch

/-- C10: the `the following products exist:` behave step clears the
collection and then creates one product per table row via
`POST /products`; each POST returns 201, the posted `available` is true
exactly when the lowercased cell is "true" or "1", `price` is the parsed
numeric value of the cell, and afterwards the store holds exactly the
rows of the table under that coercion, in order. -/
theorem load_step_loads_table (st : Store) (rows : List Row)
    (hv : ∀ r ∈ rows, r.valid = true) :
    ∃ resps stf,
      loadStep st rows = some (resps, stf) ∧
      (∀ x ∈ resps, x.status = 201) ∧
      List.Forall₂ rowMatches stf.products rows := by
  obtain ⟨resps, stf, news, hrows, h201, hprod, hmatch⟩ :=
    loadRows_spec rows st.deleteAll hv
  refine ⟨resps, stf, hrows, h201, ?_⟩
  rw [hprod]
  simpa using hmatch

/-- Witness for C10: a non-empty store and a two-row table. -/
theorem load_step_loads_table_witness :
    (∀ r ∈ ([{ name := "Shirt", description := "Red shirt", price := "12",
               available := "True", category := "CLOTHS" },
             { name := "Pen", description := "Blue pen", price := "5",
               available := "0", category := "UNKNOWN" }] : List Row),
       r.valid = true) ∧
    ∃ resps stf,
      loadStep { products := [{ id := 9, name := "Old", description := "",
                                price := 2, available := true,
                                category := Category.FOOD }], nextId := 10 }
          [{ name := "Shirt", description := "Red shirt", price := "12",
             available := "True", category := "CLOTHS" },
           { name := "Pen", description := "Blue pen", price := "5",
             available := "0", category := "UNKNOWN" }] = some (resps, stf) ∧
      (∀ x ∈ resps, x.status = 201) ∧
      List.Forall₂ rowMatches stf.products
        [{ name := "Shirt", description := "Red shirt", price := "12",
           available := "True", category := "CLOTHS" },
         { name := "Pen", description := "Blue pen", price := "5",
           available := "0", category := "UNKNOWN" }] :=
  ⟨by decide,
   load_step_loads_table
     { products := [{ id := 9, name := "Old", description := "", price := 2,
                      available := true, category := Category.FOOD }],
       nextId := 10 }
     [{ name := "Shirt", description := "Red shirt", price := "12",
        available := "True", category := "CLOTHS" },
      { name := "Pen", description := "Blue pen", price := "5",
        available := "0", category := "UNKNOWN" }]
     (by decide)⟩

end ProductService
